import Mathlib

/-!
Shallow embedding of the XFCE theme-profile manager (`theme.py`).

The script keeps a JSON document `{themes: {name: profile}, enabled: name}`,
captures the live desktop through `xfconf-query` reads, re-applies a stored
profile through `xfconf-query` writes, and notifies the user via
`notify-send`.  The embedding models:

  * the external property store as a `World` oracle (`props` for single
    property reads, which may fail like a non-zero `xfconf-query` exit;
    `channels` for property listings, `none` meaning an invalid channel);
  * each external mutation or notification as an `Effect` appended to a
    trace, mirroring the order of the subprocess calls (`xfconf_set` is
    modelled on its success path: a failing set aborts the Python process
    mid-sequence and is not tracked by the trace);
  * each `json.dump` of the config file as the dumped document appended to
    a `writes` list;
  * the module-level mutable `config` dictionary as an explicit `Config`
    value threaded through the operations, with the Python dict represented
    as an insertion-ordered association list.
-/

namespace Theme

/-- Title passed to every `notify-send` call. -/
def NOTIFY_TITLE : String := "Theme Manager"

/-- Default icon of `notify`. -/
def DEFAULT_ICON : String := "style"

/-- An observable external side effect of the script: one `xfconf-query -s`
property mutation, or one user notification. -/
inductive Effect where
  | setProp (channel path value : String)
  | notifyMsg (message icon : String)
deriving DecidableEq

/-- A theme profile, as stored under `config["themes"][name]`.  `xfwm` is
optional: `set_theme` falls back to the GTK theme when it is absent. -/
structure Profile where
  gtk : String
  xfwm : Option String
  icons : String
  cursor : String
  wallpapers : List (String × String)
deriving DecidableEq

/-- The persistent config document: the profile map (insertion-ordered, like
a Python dict) and the enabled-profile pointer (`""` when none). -/
structure Config where
  themes : List (String × Profile)
  enabled : String
deriving DecidableEq

/-- The external property store.  `props c p` is the outcome of
`xfconf-query -c c -p p` (`Except.error` carries the diagnostic output of a
non-zero exit); `channels c` is the property listing of channel `c`, `none`
when the channel is invalid. -/
structure World where
  props : String → String → Except String String
  channels : String → Option (List String)

/-- Python dict read `d[k]` on the themes map (`none` models `KeyError`). -/
def lookupTheme : List (String × Profile) → String → Option Profile
  | [], _ => none
  | (k, v) :: rest, name => if k = name then some v else lookupTheme rest name

/-- Python dict write `d[k] = t`: overwrite in place, else append. -/
def insertTheme : List (String × Profile) → String → Profile → List (String × Profile)
  | [], name, t => [(name, t)]
  | (k, v) :: rest, name, t =>
    if k = name then (k, t) :: rest else (k, v) :: insertTheme rest name t

/-- Effect of `notify(message, icon)`. -/
def notify (message : String) (icon : String) : Effect :=
  Effect.notifyMsg message icon

/-- Effect of `xfconf_set(channel, property_name, value)` (success path). -/
def xfconf_set (channel property_name value : String) : Effect :=
  Effect.setProp channel property_name value

/-- `xfconf_get(channel, property)`: read one property, raising
`CommandFailed` with the command output on a non-zero exit. -/
def xfconf_get (w : World) (channel property_name : String) : Except String String :=
  match w.props channel property_name with
  | Except.ok v => Except.ok v
  | Except.error out => Except.error ("xfconf-query command failed: " ++ out)

/-- `get_properties(channel)`: list the properties of a channel, raising
`ValueError` when the channel is invalid. -/
def get_properties (w : World) (channel : String) : Except String (List String) :=
  match w.channels channel with
  | some ps => Except.ok ps
  | none => Except.error (channel ++ " is not a valid channel")

/-- Prefix test on character lists, used to express Python substring
containment. -/
def charsPrefixOf : List Char → List Char → Bool
  | [], _ => true
  | _ :: _, [] => false
  | a :: as, b :: bs => a = b && charsPrefixOf as bs

/-- Infix test on character lists: does `needle` occur contiguously in
`hay`? -/
def charsInfixOf (needle hay : List Char) : Bool :=
  match hay with
  | [] => charsPrefixOf needle []
  | _ :: rest => charsPrefixOf needle hay || charsInfixOf needle rest

/-- The substring filter of `get_wallpapers`: `"/last-image" in p`. -/
def hasLastImage (p : String) : Bool :=
  charsInfixOf "/last-image".toList p.toList

/-- The `for w in workspaces` loop of `get_wallpapers`: resolve each path
to its current value, in order, propagating the first failing read. -/
def resolveWallpapers (w : World) : List String → Except String (List (String × String))
  | [] => Except.ok []
  | ws :: rest => do
    let v ← xfconf_get w "xfce4-desktop" ws
    let others ← resolveWallpapers w rest
    pure ((ws, v) :: others)

/-- `get_wallpapers()`: list the `xfce4-desktop` channel, keep the paths
containing `"/last-image"`, and resolve each to its current value. -/
def get_wallpapers (w : World) : Except String (List (String × String)) := do
  let properties ← get_properties w "xfce4-desktop"
  let workspaces := properties.filter fun p => hasLastImage p
  resolveWallpapers w workspaces

/-- `get_theme()`: capture the live profile, field by field in source order;
any failing read aborts the whole capture. -/
def get_theme (w : World) : Except String Profile := do
  let gtk ← xfconf_get w "xsettings" "/Net/ThemeName"
  let xfwm ← xfconf_get w "xfwm4" "/general/theme"
  let icons ← xfconf_get w "xsettings" "/Net/IconThemeName"
  let cursor ← xfconf_get w "xsettings" "/Gtk/CursorThemeName"
  let wallpapers ← get_wallpapers w
  pure { gtk := gtk, xfwm := some xfwm, icons := icons, cursor := cursor,
         wallpapers := wallpapers }

/-- `set_theme(theme)`: the ordered trace of `xfconf_set` calls; the window
manager theme falls back to the GTK theme when `xfwm` is absent
(`theme.get("xfwm", theme.get("gtk"))`). -/
def set_theme (theme : Profile) : List Effect :=
  xfconf_set "xsettings" "/Net/ThemeName" theme.gtk ::
  xfconf_set "xfwm4" "/general/theme" (theme.xfwm.getD theme.gtk) ::
  xfconf_set "xsettings" "/Net/IconThemeName" theme.icons ::
  xfconf_set "xsettings" "/Gtk/CursorThemeName" theme.cursor ::
  theme.wallpapers.map fun wp => xfconf_set "xfce4-desktop" wp.1 wp.2

/-- `save(name)`: capture the live profile (propagating any failure before
anything is assigned), store it under `name`, point `enabled` at `name`,
and dump the document.  Returns the new document and the list of dumps. -/
def save (w : World) (cfg : Config) (name : String) :
    Except String (Config × List Config) :=
  match get_theme w with
  | Except.error e => Except.error e
  | Except.ok t =>
    let cfg' : Config := { themes := insertTheme cfg.themes name t, enabled := name }
    Except.ok (cfg', [cfg'])

/-- Outcome of a `load` call: the resulting document, the trace of external
effects, and the documents dumped to the config file. -/
structure RunOut where
  config : Config
  effects : List Effect
  writes : List Config
deriving DecidableEq

/-- Message of the `load` no-op branch. -/
def alreadyMsg (name : String) : String := s!"Already on \"{name}\" theme :)"

/-- Message of the `load` not-found branch. -/
def notFoundMsg (name : String) : String := s!"Theme \"{name}\" was not found in your config!"

/-- Message of the `load` apply branch. -/
def loadingMsg (name : String) : String := s!"Loading \"{name}\" theme..."

/-- `load(name)`: no-op when `name` is already enabled; not-found
notification when `name` is absent from the themes map; otherwise notify,
apply the theme, point `enabled` at `name` and dump the document. -/
def load (cfg : Config) (name : String) : RunOut :=
  if cfg.enabled = name then
    { config := cfg,
      effects := [notify (alreadyMsg name) DEFAULT_ICON],
      writes := [] }
  else
    match lookupTheme cfg.themes name with
    | none =>
      { config := cfg,
        effects := [notify (notFoundMsg name) "script-error"],
        writes := [] }
    | some theme =>
      let cfg' : Config := { cfg with enabled := name }
      { config := cfg',
        effects := notify (loadingMsg name) DEFAULT_ICON :: set_theme theme,
        writes := [cfg'] }

/-- Day/night classification of `main`'s `auto` branch:
`"light" if hour > 6 and hour < 18 else "dark"`. -/
def autoTarget (hour : Nat) : String :=
  if 6 < hour ∧ hour < 18 then "light" else "dark"

/-- Target selection of `main`'s `toggle` branch:
`"light" if config["enabled"] == "dark" else "dark"`. -/
def toggleTarget (cfg : Config) : String :=
  if cfg.enabled = "dark" then "light" else "dark"

/-- Result of a whole `main` run: exit code, final document, effect trace,
and config-file dumps. -/
structure MainResult where
  exitCode : Nat
  config : Config
  effects : List Effect
  writes : List Config
deriving DecidableEq

/-- The `match args.action` dispatch at the end of `main`, run against the
document as it stands after the optional `--save-changes` pre-save. -/
def dispatch (w : World) (cfg : Config) (action : String) (name : Option String)
    (hour : Nat) : Except String MainResult :=
  match action with
  | "auto" =>
    let r := load cfg (autoTarget hour)
    Except.ok { exitCode := 0, config := r.config, effects := r.effects, writes := r.writes }
  | "toggle" =>
    let r := load cfg (toggleTarget cfg)
    Except.ok { exitCode := 0, config := r.config, effects := r.effects, writes := r.writes }
  | "save" =>
    match save w cfg (name.getD "") with
    | Except.error e => Except.error e
    | Except.ok (cfg2, ws2) =>
      Except.ok { exitCode := 0, config := cfg2, effects := [], writes := ws2 }
  | "load" =>
    let r := load cfg (name.getD "")
    Except.ok { exitCode := 0, config := r.config, effects := r.effects, writes := r.writes }
  | _ => Except.ok { exitCode := 0, config := cfg, effects := [], writes := [] }

/-- `main()`: reject a missing `--name` for `load`/`save` with exit code 1;
otherwise, when `--save-changes` is set, first re-save the currently enabled
profile name; then dispatch on the action.  `hour` stands for
`localtime().tm_hour`. -/
def mainRun (w : World) (cfg : Config) (action : String) (name : Option String)
    (saveChanges : Bool) (hour : Nat) : Except String MainResult :=
  if (action = "load" ∨ action = "save") ∧ name = none then
    Except.ok { exitCode := 1, config := cfg,
                effects := [notify "Theme name is missing." "gnome-warning"],
                writes := [] }
  else
    match (if saveChanges then save w cfg cfg.enabled else Except.ok (cfg, [])) with
    | Except.error e => Except.error e
    | Except.ok (cfg1, writes1) =>
      (dispatch w cfg1 action name hour).map fun r =>
        { r with writes := writes1 ++ r.writes }

/-- Number of external property-mutation calls in an effect trace. -/
def setCount (effects : List Effect) : Nat :=
  effects.countP fun e =>
    match e with
    | Effect.setProp _ _ _ => true
    | _ => false

/-- C1: when the enabled pointer already equals `name`, `load name` only
notifies "already on name": the document is unchanged, nothing is dumped to
the config file, and no property-mutation effect is issued; consequently a
second consecutive `load name` (from any starting document) issues zero
property-mutation effects, so two consecutive calls issue the external set
sequence at most once. -/
theorem load_already_enabled_noop (cfg : Config) (name : String) :
    (cfg.enabled = name →
      load cfg name =
        { config := cfg,
          effects := [Effect.notifyMsg (alreadyMsg name) DEFAULT_ICON],
          writes := [] } ∧
      setCount (load cfg name).effects = 0)
    ∧ setCount (load (load cfg name).config name).effects = 0 := by
  constructor
  · intro h
    constructor
    · simp [load, h, notify]
    · simp [load, h, notify, setCount]
  · by_cases h : cfg.enabled = name
    · simp [load, h, notify, setCount]
    · cases hm : lookupTheme cfg.themes name with
      | none => simp [load, h, hm, notify, setCount]
      | some t => simp [load, h, hm, notify, setCount]

/-- Witness for `load_already_enabled_noop` at a concrete document whose
enabled pointer is `"dark"`. -/
theorem load_already_enabled_noop_witness :
    load { themes := [], enabled := "dark" } "dark" =
      { config := { themes := [], enabled := "dark" },
        effects := [Effect.notifyMsg (alreadyMsg "dark") DEFAULT_ICON],
        writes := [] } :=
  ((load_already_enabled_noop { themes := [], enabled := "dark" } "dark").1 rfl).1

/-- C2: for every hour of a 24-hour clock, the `auto` action selects
`"light"` exactly when `7 ≤ hour < 18` and `"dark"` otherwise, then hands
that target to `load`; in particular hours 6 and 18 select `"dark"` and
hours 7 and 17 select `"light"`. -/
theorem auto_selects_and_applies (hour : Nat) (h : hour < 24) :
    (autoTarget hour = if 7 ≤ hour ∧ hour < 18 then "light" else "dark")
    ∧ (∀ (w : World) (cfg : Config) (name : Option String),
        dispatch w cfg "auto" name hour =
          Except.ok { exitCode := 0, config := (load cfg (autoTarget hour)).config,
                      effects := (load cfg (autoTarget hour)).effects,
                      writes := (load cfg (autoTarget hour)).writes })
    ∧ autoTarget 6 = "dark" ∧ autoTarget 18 = "dark"
    ∧ autoTarget 7 = "light" ∧ autoTarget 17 = "light" := by
  refine ⟨?_, ?_, rfl, rfl, rfl, rfl⟩
  · by_cases hc : 7 ≤ hour ∧ hour < 18
    · rw [if_pos hc]
      unfold autoTarget
      rw [if_pos (by omega)]
    · rw [if_neg hc]
      unfold autoTarget
      rw [if_neg (by omega)]
  · intro w cfg name
    rfl

/-- Witness for `auto_selects_and_applies` at the boundary hours. -/
theorem auto_selects_and_applies_witness :
    autoTarget 6 = "dark" ∧ autoTarget 7 = "light"
    ∧ autoTarget 17 = "light" ∧ autoTarget 18 = "dark" :=
  ⟨(auto_selects_and_applies 6 (by omega)).2.2.1,
   (auto_selects_and_applies 7 (by omega)).2.2.2.2.1,
   (auto_selects_and_applies 17 (by omega)).2.2.2.2.2,
   (auto_selects_and_applies 18 (by omega)).2.2.2.1⟩

/-- C10: the already-enabled check of `load` comes before the existence
check: whenever the enabled pointer equals `name` — even when `name` is
absent from the themes map — `load name` takes the no-op branch, and no
not-found notification (icon `"script-error"`) is ever emitted. -/
theorem load_enabled_check_precedes_lookup (cfg : Config) (name : String)
    (h : cfg.enabled = name) :
    load cfg name =
      { config := cfg,
        effects := [Effect.notifyMsg (alreadyMsg name) DEFAULT_ICON],
        writes := [] }
    ∧ ∀ m, Effect.notifyMsg m "script-error" ∉ (load cfg name).effects := by
  have hl : load cfg name =
      { config := cfg,
        effects := [Effect.notifyMsg (alreadyMsg name) DEFAULT_ICON],
        writes := [] } := by
    simp [load, h, notify]
  refine ⟨hl, ?_⟩
  intro m hm
  rw [hl] at hm
  simp only [List.mem_singleton, Effect.notifyMsg.injEq] at hm
  exact absurd hm.2 (by decide)

/-- Witness for `load_enabled_check_precedes_lookup` at a document whose
enabled pointer names a profile that is absent from the themes map. -/
theorem load_enabled_check_precedes_lookup_witness :
    load { themes := [], enabled := "missing" } "missing" =
      { config := { themes := [], enabled := "missing" },
        effects := [Effect.notifyMsg (alreadyMsg "missing") DEFAULT_ICON],
        writes := [] } :=
  (load_enabled_check_precedes_lookup { themes := [], enabled := "missing" } "missing" rfl).1

/-- C3 counterexample: at the concrete document with an empty enabled
pointer and no stored profiles, `toggle` does NOT choose `"light"` — the
comparison `enabled == "dark"` is false on `""`, so the else branch picks
`"dark"`. -/
theorem toggle_no_profile_not_light :
    toggleTarget { themes := [], enabled := "" } ≠ "light" := by
  decide

/-- C3 (amended): when no profile is enabled (the enabled pointer is the
empty string), `toggle` degenerates to choosing `"dark"` as the target
profile name. -/
theorem toggle_no_profile_chooses_dark (cfg : Config) (h : cfg.enabled = "") :
    toggleTarget cfg = "dark" := by
  simp [toggleTarget, h]

/-- Witness for `toggle_no_profile_chooses_dark` at the empty document. -/
theorem toggle_no_profile_chooses_dark_witness :
    toggleTarget { themes := [], enabled := "" } = "dark" :=
  toggle_no_profile_chooses_dark { themes := [], enabled := "" } rfl

/-- C4: if capturing the live profile fails during `save name`, the save
aborts entirely with that error: no result document and no dump is produced
(the `Except.ok` payload carrying them never exists), and the same error
propagates through `main`'s `save` dispatch to the caller. -/
theorem save_capture_failure_aborts (w : World) (cfg : Config) (name e : String)
    (h : get_theme w = Except.error e) :
    save w cfg name = Except.error e
    ∧ ∀ (hour : Nat), dispatch w cfg "save" (some name) hour = Except.error e := by
  constructor
  · simp [save, h]
  · intro hour
    simp [dispatch, save, h]

/-- A property store on which every read fails: `xfconf-query` always exits
non-zero with diagnostic output `"boom"`. -/
def failingWorld : World :=
  { props := fun _ _ => Except.error "boom", channels := fun _ => none }

/-- Witness for `save_capture_failure_aborts` on `failingWorld`. -/
theorem save_capture_failure_aborts_witness :
    save failingWorld { themes := [], enabled := "" } "day" =
      Except.error "xfconf-query command failed: boom" :=
  (save_capture_failure_aborts failingWorld { themes := [], enabled := "" } "day"
    "xfconf-query command failed: boom" rfl).1

/-- C5: when `name` is absent from the themes map and is not the enabled
profile, `load name` emits exactly the not-found notification and returns
with the document unchanged, no config-file dump, and zero external
property-mutation effects. -/
theorem load_not_found (cfg : Config) (name : String)
    (hne : cfg.enabled ≠ name) (hmiss : lookupTheme cfg.themes name = none) :
    load cfg name =
      { config := cfg,
        effects := [Effect.notifyMsg (notFoundMsg name) "script-error"],
        writes := [] }
    ∧ setCount (load cfg name).effects = 0 := by
  constructor
  · simp [load, hne, hmiss, notify]
  · simp [load, hne, hmiss, notify, setCount]

/-- Witness for `load_not_found`: loading `"missing"` while `"day"` is
enabled and the themes map is empty. -/
theorem load_not_found_witness :
    load { themes := [], enabled := "day" } "missing" =
      { config := { themes := [], enabled := "day" },
        effects := [Effect.notifyMsg (notFoundMsg "missing") "script-error"],
        writes := [] } :=
  (load_not_found { themes := [], enabled := "day" } "missing" (by decide) rfl).1

/-- C7: `toggle` selects `"light"` exactly when the enabled pointer equals
`"dark"` and `"dark"` otherwise, then hands that target to `load`; so from
`"dark"` it yields `"light"` and from `"light"` it yields `"dark"`. -/
theorem toggle_rule (cfg : Config) :
    toggleTarget cfg = (if cfg.enabled = "dark" then "light" else "dark")
    ∧ (∀ (w : World) (name : Option String) (hour : Nat),
        dispatch w cfg "toggle" name hour =
          Except.ok { exitCode := 0, config := (load cfg (toggleTarget cfg)).config,
                      effects := (load cfg (toggleTarget cfg)).effects,
                      writes := (load cfg (toggleTarget cfg)).writes })
    ∧ (cfg.enabled = "dark" → toggleTarget cfg = "light")
    ∧ (cfg.enabled = "light" → toggleTarget cfg = "dark") := by
  refine ⟨rfl, ?_, ?_, ?_⟩
  · intro w name hour
    rfl
  · intro h
    simp [toggleTarget, h]
  · intro h
    simp [toggleTarget, h]

/-- Witness for `toggle_rule`: from `"dark"` toggle yields `"light"`, and
from `"light"` it yields `"dark"`. -/
theorem toggle_rule_witness :
    toggleTarget { themes := [], enabled := "dark" } = "light"
    ∧ toggleTarget { themes := [], enabled := "light" } = "dark" :=
  ⟨(toggle_rule { themes := [], enabled := "dark" }).2.2.1 rfl,
   (toggle_rule { themes := [], enabled := "light" }).2.2.2 rfl⟩

/-- C6: applying a profile issues, in exactly this order, the GTK theme
name, the window-manager theme (substituting the GTK theme when `xfwm` is
absent), the icon theme, the cursor theme, and then each wallpaper entry;
and the fallback is resolved at apply time only — `load` never rewrites the
stored themes map. -/
theorem set_theme_order (theme : Profile) :
    set_theme theme =
      Effect.setProp "xsettings" "/Net/ThemeName" theme.gtk ::
      Effect.setProp "xfwm4" "/general/theme"
        (match theme.xfwm with
         | some x => x
         | none => theme.gtk) ::
      Effect.setProp "xsettings" "/Net/IconThemeName" theme.icons ::
      Effect.setProp "xsettings" "/Gtk/CursorThemeName" theme.cursor ::
      theme.wallpapers.map (fun wp => Effect.setProp "xfce4-desktop" wp.1 wp.2)
    ∧ ∀ (cfg : Config) (name : String), ((load cfg name).config).themes = cfg.themes := by
  constructor
  · cases hx : theme.xfwm with
    | none => simp [set_theme, xfconf_set, hx]
    | some x => simp [set_theme, xfconf_set, hx]
  · intro cfg name
    by_cases h : cfg.enabled = name
    · simp [load, h]
    · cases hm : lookupTheme cfg.themes name with
      | none => simp [load, h, hm]
      | some t => simp [load, h, hm]

/-- Helper for C8: resolving a list of paths on a world where every read of
the `xfce4-desktop` channel succeeds pairs each path with its value. -/
theorem resolveWallpapers_all_ok (w : World) (f : String → String) :
    ∀ l : List String,
      (∀ p ∈ l, w.props "xfce4-desktop" p = Except.ok (f p)) →
      resolveWallpapers w l = Except.ok (l.map fun p => (p, f p)) := by
  intro l
  induction l with
  | nil => intro _; rfl
  | cons a t ih =>
    intro h
    have ha : w.props "xfce4-desktop" a = Except.ok (f a) :=
      h a (List.mem_cons_self a t)
    have iht := ih fun p hp => h p (List.mem_cons_of_mem a hp)
    simp only [resolveWallpapers, xfconf_get, ha, iht]
    rfl

/-- C8: when the `xfce4-desktop` channel lists `ps` and every listed
`"/last-image"` path reads back a value, `get_wallpapers` returns exactly
the listed paths containing `"/last-image"` — however many there are —
each paired with its current value, and no other path. -/
theorem get_wallpapers_exact_filter (w : World) (ps : List String) (f : String → String)
    (hl : w.channels "xfce4-desktop" = some ps)
    (hv : ∀ p ∈ ps, hasLastImage p = true → w.props "xfce4-desktop" p = Except.ok (f p)) :
    get_wallpapers w =
      Except.ok ((ps.filter fun p => hasLastImage p).map fun p => (p, f p))
    ∧ (((ps.filter fun p => hasLastImage p).map fun p => (p, f p)).map Prod.fst
        = ps.filter fun p => hasLastImage p) := by
  constructor
  · have hres := resolveWallpapers_all_ok w f (ps.filter fun p => hasLastImage p)
      fun p hp => hv p (List.mem_of_mem_filter hp) (List.of_mem_filter hp)
    simp only [get_wallpapers, get_properties, hl]
    exact hres
  · rw [List.map_map, show (Prod.fst ∘ fun p : String => (p, f p)) = id from rfl,
        List.map_id]

/-- A live system with two workspaces: the desktop-background channel lists
four properties, two of which are per-workspace `"/last-image"` paths, and
every property reads back `"img"`. -/
def twoWorkspaceWorld : World :=
  { props := fun _ _ => Except.ok "img",
    channels := fun c =>
      if c = "xfce4-desktop" then
        some ["/backdrop/screen0/monitor0/workspace0/last-image",
              "/backdrop/screen0/monitor0/workspace0/image-style",
              "/backdrop/screen0/monitor0/workspace1/last-image",
              "/backdrop/screen0/monitor0/workspace1/color-style"]
      else none }

/-- Witness for `get_wallpapers_exact_filter` on `twoWorkspaceWorld`: the
two `"/last-image"` paths and nothing else. -/
theorem get_wallpapers_exact_filter_witness :
    get_wallpapers twoWorkspaceWorld =
      Except.ok [("/backdrop/screen0/monitor0/workspace0/last-image", "img"),
                 ("/backdrop/screen0/monitor0/workspace1/last-image", "img")] := by
  have h := (get_wallpapers_exact_filter twoWorkspaceWorld
      ["/backdrop/screen0/monitor0/workspace0/last-image",
       "/backdrop/screen0/monitor0/workspace0/image-style",
       "/backdrop/screen0/monitor0/workspace1/last-image",
       "/backdrop/screen0/monitor0/workspace1/color-style"]
      (fun _ => "img") rfl fun p _ _ => rfl).1
  exact h.trans (by rfl)

/-- C9: with `--save-changes` set and the `--name` requirement satisfied,
`main` first re-saves the currently enabled profile name — whatever the
action is — and then behaves exactly like a run without the flag started
from the re-saved document (with the pre-save dump prepended); the pre-save
stores the captured profile under the enabled name (the empty string when
no profile is enabled) and re-points `enabled` at that same name. -/
theorem save_changes_presaves_enabled (w : World) (cfg : Config) (action : String)
    (name : Option String) (hour : Nat) (c : Config) (ws : List Config)
    (hname : ¬((action = "load" ∨ action = "save") ∧ name = none))
    (hsave : save w cfg cfg.enabled = Except.ok (c, ws)) :
    mainRun w cfg action name true hour =
      (mainRun w c action name false hour).map
        (fun r => { r with writes := ws ++ r.writes })
    ∧ ∃ t, get_theme w = Except.ok t
        ∧ c = { themes := insertTheme cfg.themes cfg.enabled t, enabled := cfg.enabled }
        ∧ ws = [c] := by
  constructor
  · unfold mainRun
    rw [if_neg hname, if_neg hname]
    simp only [if_true, if_false]
    rw [hsave]
    cases hd : dispatch w c action name hour with
    | error e => simp [hd, Except.map]
    | ok r => simp [hd, Except.map]
  · cases hg : get_theme w with
    | error e =>
      rw [save, hg] at hsave
      exact absurd hsave (by simp)
    | ok t =>
      rw [save, hg] at hsave
      simp only [Except.ok.injEq, Prod.mk.injEq] at hsave
      exact ⟨t, rfl, hsave.1.symm, hsave.1 ▸ hsave.2.symm⟩

/-- A property store on which every read returns `"v"` and the
desktop-background channel lists no properties. -/
def presaveWorld : World :=
  { props := fun _ _ => Except.ok "v", channels := fun _ => some [] }

/-- The document produced by re-saving on `presaveWorld` when no profile is
enabled: the captured profile stored under the empty-string name, with the
enabled pointer still the empty string. -/
def presavedConfig : Config :=
  { themes := [("", { gtk := "v", xfwm := some "v", icons := "v", cursor := "v",
                      wallpapers := [] })],
    enabled := "" }

/-- Witness for `save_changes_presaves_enabled`: a `toggle` run with
`--save-changes` on a document with no enabled profile. -/
theorem save_changes_presaves_enabled_witness :
    mainRun presaveWorld { themes := [], enabled := "" } "toggle" none true 0 =
      (mainRun presaveWorld presavedConfig "toggle" none false 0).map
        (fun r => { r with writes := [presavedConfig] ++ r.writes })
    ∧ ∃ t, get_theme presaveWorld = Except.ok t
        ∧ presavedConfig = { themes := insertTheme [] "" t, enabled := "" }
        ∧ [presavedConfig] = [presavedConfig] :=
  save_changes_presaves_enabled presaveWorld { themes := [], enabled := "" } "toggle"
    none 0 presavedConfig [presavedConfig] (by decide) rfl

end Theme
